import Mathlib

/-!
Verification of `autokeras/tuner.py` (AutoTuner orchestration core and the
tuner registry) through a shallow embedding in Lean 4.

Modelling decisions, mapped line by line to the source:

* A Keras callback is modelled by `Callback`: either an early-stopping
  callback carrying its patience, or some other callback identified by a tag.
  `isinstance(cb, tf.keras.callbacks.EarlyStopping)` becomes
  `Callback.isEarlyStopping`.
* Python lists are mutable heap objects aliased by references.  We model the
  heap of callback-list objects explicitly (`Heap`, a list of cells indexed by
  `Ref := Nat`), so that statements such as `new_callbacks.append(...)`
  (tuner.py line 64) are heap writes and the claim that the caller's own list
  is never mutated is a real theorem, not a triviality of value semantics.
  `self._deepcopy_callbacks(lst)` allocates a fresh cell holding a copy of the
  contents (the callbacks themselves are value-like here; deep vs shallow copy
  is not observable at this level).
* `fit_kwargs` is modelled by the `FitKwargs` structure; `Option` encodes
  presence of a key in the Python dict, and reading an absent key raises
  `Err.keyError` exactly as Python subscripting does.  Datasets are lists of
  opaque examples (`List Nat`); `tf.data.Dataset.concatenate` is list append.
* External collaborators (the base `super().search`, the oracle's
  `get_best_trials`, `hypermodel.build`, `model.fit`, `model.save_weights`)
  are recorded as an `Effect` trace rather than interpreted; the oracle's best
  trial's hyperparameters are an opaque parameter `bestHP`.
* `search` (tuner.py lines 40-83) becomes `searchRun`, a pure function from
  the tuner state, the heap, the arguments and the oracle's answer to
  `Except Err (TunerState × Heap × List Effect)`.
* `get_tuner_class` (lines 154-160) takes a Python value (string, class or
  other); `Err.valueError` models `ValueError` and the message is built
  exactly as the source's format string builds it.
-/

/-- A training callback: an early-stopping callback with its patience, or any
other callback (identified by an opaque tag). -/
inductive Callback
  | earlyStopping (patience : Nat)
  | other (tag : Nat)
deriving DecidableEq

/-- Models `isinstance(callback, tf.keras.callbacks.EarlyStopping)`. -/
def Callback.isEarlyStopping : Callback → Bool
  | .earlyStopping _ => true
  | .other _ => false

/-- A reference to a mutable Python list of callbacks. -/
abbrev Ref := Nat

/-- The heap of callback-list objects: cell `r` holds the contents of the
list object referenced by `r`. -/
structure Heap where
  cells : List (List Callback)
deriving DecidableEq

/-- Reading a list object (out-of-range references read as `[]`; `searchRun`
only ever dereferences valid references). -/
def Heap.read (h : Heap) (r : Ref) : List Callback :=
  h.cells.getD r []

/-- Allocating a fresh list object with contents `v`; returns the new heap and
the fresh reference. -/
def Heap.alloc (h : Heap) (v : List Callback) : Heap × Ref :=
  (⟨h.cells ++ [v]⟩, h.cells.length)

/-- Overwriting the contents of the list object at `r`. -/
def Heap.write (h : Heap) (r : Ref) (v : List Callback) : Heap :=
  ⟨h.cells.set r v⟩

/-- Models `lst.append(c)`: mutates the list object at `r` in place. -/
def Heap.appendCell (h : Heap) (r : Ref) (c : Callback) : Heap :=
  h.write r (h.read r ++ [c])

/-- Models `self._deepcopy_callbacks(lst)`: a fresh, independent list object with the
same contents. -/
def deepcopy_callbacks (h : Heap) (r : Ref) : Heap × Ref :=
  h.alloc (h.read r)

/-- A dataset is a finite sequence of opaque examples;
`Dataset.concatenate` is `++`. -/
abbrev Dataset := List Nat

/-- The keyword arguments forwarded to fitting (`fit_kwargs`).  A field of
`none` means the key is absent from the dict. -/
structure FitKwargs where
  x : Option Dataset
  validation_data : Option Dataset
  callbacks : Option (List Callback)
deriving DecidableEq

/-- Python exceptions raised by the modelled code: `KeyError` from dict
subscripting and `ValueError` from explicit raises. -/
inductive Err
  | keyError (key : String)
  | valueError (msg : String)
deriving DecidableEq

/-- Does this exception have Python class `ValueError` (the class Python
raises for an invalid argument value)? -/
def Err.isValueError : Err → Bool
  | .valueError _ => true
  | .keyError _ => false

/-- The per-instance state of an `AutoTuner`: the `_finished` flag and the
project directory (used only to derive `best_model_path`). -/
structure TunerState where
  _finished : Bool
  project_dir : String
deriving DecidableEq

/-- Models `AutoTuner.__init__` (tuner.py lines 27-29): `self._finished = False`. -/
def AutoTuner.init (project_dir : String) : TunerState :=
  { _finished := false, project_dir := project_dir }

/-- Models `os.path.join` restricted to two POSIX components, as used by
`best_model_path`: the right component wins when absolute; otherwise a slash
separator is inserted unless the left component is empty or already ends with
one. -/
def os_path_join (a b : String) : String :=
  if "/".data.isPrefixOf b.data then b
  else if a = "" then b
  else if "/".data.isSuffixOf a.data then a ++ b
  else a ++ "/" ++ b

/-- Models `AutoTuner.best_model_path` (tuner.py lines 85-87). -/
def best_model_path (st : TunerState) : String :=
  os_path_join st.project_dir "best_model"

/-- The calls `search` makes to its external collaborators, in order. -/
inductive Effect
  | baseSearch (cbs : List Callback)
  | buildModel (hp : Nat)
  | fitModel (cbs : List Callback) (x : Option Dataset)
  | loadBaseBest
  | saveWeights (path : String)
deriving DecidableEq

/-- Is this effect a weights write? -/
def Effect.isSaveWeights : Effect → Bool
  | .saveWeights _ => true
  | _ => false

/-- Is this effect a model build (the start of the full-retrain branch)? -/
def Effect.isBuildModel : Effect → Bool
  | .buildModel _ => true
  | _ => false

/-- The body of `AutoTuner.search` from tuner.py line 61 on, once the
`_finished` guard has passed and the local `callbacks` has been bound to the
reference of a (possibly freshly allocated empty) list object. -/
def searchBody (st : TunerState) (h1 : Heap) (callbacks : Ref)
    (fit_on_val_data : Bool) (fk : FitKwargs) (bestHP : Nat) :
    Except Err (TunerState × Heap × List Effect) :=
    -- line 61: `new_callbacks = self._deepcopy_callbacks(callbacks)`
    let alloc1 := deepcopy_callbacks h1 callbacks
    let h2 := alloc1.1
    let new_callbacks := alloc1.2
    -- lines 62-64: inject early stopping into the working copy only
    let h3 :=
      if (h2.read callbacks).any Callback.isEarlyStopping then h2
      else h2.appendCell new_callbacks (.earlyStopping 10)
    -- line 66: `super().search(callbacks=new_callbacks, **fit_kwargs)`
    let effSearch := Effect.baseSearch (h3.read new_callbacks)
    -- lines 69-70: the retrain trigger, re-testing the original list
    if !(h3.read callbacks).any Callback.isEarlyStopping || fit_on_val_data then
      -- lines 71-72 (oracle access, opaque) and line 73:
      -- `fit_kwargs['callbacks'] = self._deepcopy_callbacks(callbacks)`
      let alloc2 := deepcopy_callbacks h3 callbacks
      let h4 := alloc2.1
      let fk1 : FitKwargs := { fk with callbacks := some (h4.read alloc2.2) }
      -- lines 74-76: concatenate training and validation data; dict reads
      -- raise KeyError on absent keys, `x` being read first
      let step : Except Err FitKwargs :=
        if fit_on_val_data then
          match fk1.x with
          | none => .error (.keyError "x")
          | some xs =>
            match fk1.validation_data with
            | none => .error (.keyError "validation_data")
            | some vd => .ok { fk1 with x := some (xs ++ vd) }
        else .ok fk1
      match step with
      | .error e => .error e
      | .ok fk2 =>
        -- lines 77-78: build the model from the best trial and fit it,
        -- then lines 82-83: save weights, set the finished flag
        .ok ({ st with _finished := true }, h4,
          [effSearch, .buildModel bestHP,
           .fitModel (fk2.callbacks.getD []) fk2.x,
           .saveWeights (best_model_path st)])
    else
      -- line 80: `model = self.get_best_models()[0]`, then lines 82-83
      .ok ({ st with _finished := true }, h3,
        [effSearch, .loadBaseBest, .saveWeights (best_model_path st)])

/-- Models `AutoTuner.search` (tuner.py lines 40-83): the `_finished` guard (lines
55-56), the `if not callbacks: callbacks = []` rebinding (lines 59-60, which
rebinds the local to a fresh empty list when the argument is `None` or an
empty list), then `searchBody`.

Arguments: the instance state `st`, the heap `h` of callback-list objects,
`callbacksArg` (`none` models the default `callbacks=None`, `some r` a
caller-supplied list object), `fit_on_val_data`, the dict `fk` of remaining
fit kwargs, and `bestHP`, the hyperparameters of the oracle's best trial
(`self.oracle.get_best_trials(1)[0].hyperparameters`, opaque here).

Returns the updated state, the updated heap and the trace of external calls,
or the Python exception raised. -/
def searchRun (st : TunerState) (h : Heap) (callbacksArg : Option Ref)
    (fit_on_val_data : Bool) (fk : FitKwargs) (bestHP : Nat) :
    Except Err (TunerState × Heap × List Effect) :=
  if st._finished then .ok (st, h, [])
  else
    let alloc0 :=
      match callbacksArg with
      | none => h.alloc []
      | some r => if h.read r = [] then h.alloc [] else (h, r)
    searchBody st alloc0.1 alloc0.2 fit_on_val_data fk bestHP

/-! ## The tuner registry (tuner.py lines 90-160) -/

/-- The tuner classes that appear as values of `TUNER_CLASSES`. -/
inductive TunerClass
  | bayesianOptimization
  | randomSearch
  | hyperband
  | greedy
  | imageClassifierTuner
deriving DecidableEq

/-- Models `TUNER_CLASSES` (tuner.py lines 140-151), as an association list in source
order; the keys are pairwise distinct so lookup agrees with the Python dict. -/
def TUNER_CLASSES : List (String × TunerClass) :=
  [("bayesian", .bayesianOptimization),
   ("random", .randomSearch),
   ("hyperband", .hyperband),
   ("greedy", .greedy),
   ("image_classifier", .imageClassifierTuner),
   ("image_regressor", .greedy),
   ("text_classifier", .greedy),
   ("text_regressor", .greedy),
   ("structured_data_classifier", .greedy),
   ("structured_data_regressor", .greedy)]

/-- A Python value passed for the `tuner` argument: a string, one of the tuner
classes, or some other non-string object (represented by an integer). -/
inductive PyValue
  | str (s : String)
  | cls (c : TunerClass)
  | intVal (n : Int)
deriving DecidableEq

/-- The qualified name Python prints for each tuner class. -/
def TunerClass.pyName : TunerClass → String
  | .bayesianOptimization => "autokeras.tuner.BayesianOptimization"
  | .randomSearch => "autokeras.tuner.RandomSearch"
  | .hyperband => "autokeras.tuner.Hyperband"
  | .greedy => "autokeras.tuner.Greedy"
  | .imageClassifierTuner => "autokeras.tuner.ImageClassifierTuner"

/-- What `str.format` interpolates for `{tuner}`. -/
def pyFormat : PyValue → String
  | .str s => s
  | .cls c => "<class \x27" ++ c.pyName ++ "\x27>"
  | .intVal n => toString n

/-- The `ValueError` message built at tuner.py lines 158-160 (the source's
adjacent string literals concatenate into one). -/
def tunerErrMsg (tuner : PyValue) : String :=
  "The value " ++ pyFormat tuner ++
    " passed for argument tuner is invalid, expected one of \"greedy\", \"random\", \"hyperband\", \"bayesian\"."

/-- Models `get_tuner_class` (tuner.py lines 154-160). -/
def get_tuner_class (tuner : PyValue) : Except Err TunerClass :=
  match tuner with
  | .str s =>
    match TUNER_CLASSES.lookup s with
    | some c => .ok c
    | none => .error (.valueError (tunerErrMsg tuner))
  | _ => .error (.valueError (tunerErrMsg tuner))

/-! ## Derived descriptions of `searchRun`

`origCallbacks`, `augmented`, `retrainNeeded` and `concatStep` are value-level
descriptions of what `searchRun` does; `searchRun_outcome` proves once and for
all that the faithful heap-passing translation projects onto them. -/

/-- The value of the caller-supplied callback list (`[]` for `None`). -/
def origCallbacks (h : Heap) (arg : Option Ref) : List Callback :=
  match arg with
  | none => []
  | some r => h.read r

/-- The working list handed to the base search procedure. -/
def augmented (orig : List Callback) : List Callback :=
  if orig.any Callback.isEarlyStopping then orig else orig ++ [.earlyStopping 10]

/-- The retrain trigger of tuner.py lines 69-70. -/
def retrainNeeded (orig : List Callback) (fit_on_val_data : Bool) : Bool :=
  !orig.any Callback.isEarlyStopping || fit_on_val_data

/-- The dataset (`fit_kwargs['x']`) the final fit receives, or the exception
raised while concatenating. -/
def concatStep (fit_on_val_data : Bool) (fk : FitKwargs) :
    Except Err (Option Dataset) :=
  if fit_on_val_data then
    match fk.x with
    | none => .error (.keyError "x")
    | some xs =>
      match fk.validation_data with
      | none => .error (.keyError "validation_data")
      | some vd => .ok (some (xs ++ vd))
  else .ok fk.x

/-- The state-and-effects view of one `search` call. -/
def searchOutcome (st : TunerState) (orig : List Callback)
    (fit_on_val_data : Bool) (fk : FitKwargs) (bestHP : Nat) :
    Except Err (TunerState × List Effect) :=
  if st._finished then .ok (st, [])
  else if retrainNeeded orig fit_on_val_data then
    match concatStep fit_on_val_data fk with
    | .error e => .error e
    | .ok x2 =>
      .ok ({ st with _finished := true },
        [.baseSearch (augmented orig), .buildModel bestHP, .fitModel orig x2,
         .saveWeights (best_model_path st)])
  else
    .ok ({ st with _finished := true },
      [.baseSearch (augmented orig), .loadBaseBest,
       .saveWeights (best_model_path st)])

/-! ## Heap lemmas -/

theorem Heap.read_out_of_range (h : Heap) (r : Ref)
    (hr : h.cells.length ≤ r) : h.read r = [] :=
  List.getD_eq_default _ _ hr

theorem Heap.lt_of_read_ne_nil (h : Heap) (r : Ref)
    (hr : h.read r ≠ []) : r < h.cells.length := by
  by_contra hlt
  exact hr (h.read_out_of_range r (Nat.le_of_not_lt hlt))

theorem Heap.read_alloc_of_lt (h : Heap) (v : List Callback) (r : Ref)
    (hr : r < h.cells.length) : (h.alloc v).1.read r = h.read r :=
  List.getD_append _ _ _ _ hr

theorem Heap.read_alloc_self (h : Heap) (v : List Callback) :
    (h.alloc v).1.read (h.alloc v).2 = v := by
  show (h.cells ++ [v]).getD h.cells.length [] = v
  rw [List.getD_append_right _ _ _ _ (Nat.le_refl _), Nat.sub_self]
  rfl

theorem Heap.read_write_self (h : Heap) (r : Ref) (v : List Callback)
    (hr : r < h.cells.length) : (h.write r v).read r = v := by
  simp [Heap.read, Heap.write, List.getD, List.getElem?_set_self, hr]

theorem Heap.read_write_ne (h : Heap) (r r' : Ref) (v : List Callback)
    (hne : r' ≠ r) : (h.write r' v).read r = h.read r := by
  simp [Heap.read, Heap.write, List.getD, List.getElem?_set_ne hne]

theorem Heap.alloc_fst_length (h : Heap) (v : List Callback) :
    (h.alloc v).1.cells.length = h.cells.length + 1 := by
  simp [Heap.alloc]

theorem Heap.write_length (h : Heap) (r : Ref) (v : List Callback) :
    (h.write r v).cells.length = h.cells.length := by
  simp [Heap.write]

/-! ## Projection and frame lemmas for `searchRun` -/

/-- For a valid `callbacks` reference, the state-and-effects view of
`searchBody` is `searchOutcome` of the list the reference holds. -/
theorem searchBody_outcome (st : TunerState) (h1 : Heap) (callbacks : Ref)
    (fovd : Bool) (fk : FitKwargs) (hp : Nat)
    (hfin : st._finished = false)
    (hlt : callbacks < h1.cells.length) :
    (searchBody st h1 callbacks fovd fk hp).map (fun p => (p.1, p.2.2)) =
      searchOutcome st (h1.read callbacks) fovd fk hp := by
  have hr2c : (deepcopy_callbacks h1 callbacks).1.read callbacks = h1.read callbacks :=
    Heap.read_alloc_of_lt h1 _ callbacks hlt
  have hr2n : (deepcopy_callbacks h1 callbacks).1.read (deepcopy_callbacks h1 callbacks).2
      = h1.read callbacks := Heap.read_alloc_self h1 _
  have hnerefs : (deepcopy_callbacks h1 callbacks).2 ≠ callbacks := Nat.ne_of_gt hlt
  have hlt2 : (deepcopy_callbacks h1 callbacks).2 <
      (deepcopy_callbacks h1 callbacks).1.cells.length := by
    show h1.cells.length < (h1.cells ++ [h1.read callbacks]).length
    simp
  cases hES : (h1.read callbacks).any Callback.isEarlyStopping with
  | true =>
    have hretr : (deepcopy_callbacks (deepcopy_callbacks h1 callbacks).1 callbacks).1.read
        (deepcopy_callbacks (deepcopy_callbacks h1 callbacks).1 callbacks).2 =
        h1.read callbacks := by
      simp only [deepcopy_callbacks]
      rw [Heap.read_alloc_self]
      exact hr2c
    cases fovd with
    | false =>
      simp [searchBody, searchOutcome, hfin, hr2c, hr2n, hES, hretr, retrainNeeded,
        augmented, concatStep, Except.map]
    | true =>
      cases hx : fk.x with
      | none =>
        simp [searchBody, searchOutcome, hfin, hr2c, hr2n, hES, hretr, retrainNeeded,
          augmented, concatStep, Except.map, hx]
      | some xs =>
        cases hv : fk.validation_data with
        | none =>
          simp [searchBody, searchOutcome, hfin, hr2c, hr2n, hES, hretr, retrainNeeded,
            augmented, concatStep, Except.map, hx, hv]
        | some vd =>
          simp [searchBody, searchOutcome, hfin, hr2c, hr2n, hES, hretr, retrainNeeded,
            augmented, concatStep, Except.map, hx, hv]
  | false =>
    have hr3n : ((deepcopy_callbacks h1 callbacks).1.appendCell
        (deepcopy_callbacks h1 callbacks).2 (.earlyStopping 10)).read
        (deepcopy_callbacks h1 callbacks).2 =
        h1.read callbacks ++ [.earlyStopping 10] := by
      rw [Heap.appendCell, Heap.read_write_self _ _ _ hlt2, hr2n]
    have hr3c : ((deepcopy_callbacks h1 callbacks).1.appendCell
        (deepcopy_callbacks h1 callbacks).2 (.earlyStopping 10)).read callbacks =
        h1.read callbacks := by
      rw [Heap.appendCell, Heap.read_write_ne _ _ _ _ hnerefs, hr2c]
    have hretr : (deepcopy_callbacks ((deepcopy_callbacks h1 callbacks).1.appendCell
        (deepcopy_callbacks h1 callbacks).2 (.earlyStopping 10)) callbacks).1.read
        (deepcopy_callbacks ((deepcopy_callbacks h1 callbacks).1.appendCell
        (deepcopy_callbacks h1 callbacks).2 (.earlyStopping 10)) callbacks).2 =
        h1.read callbacks := by
      simp only [deepcopy_callbacks]
      rw [Heap.read_alloc_self]
      exact hr3c
    cases fovd with
    | false =>
      simp [searchBody, searchOutcome, hfin, hr2c, hr2n, hES, hr3n, hr3c, hretr,
        retrainNeeded, augmented, concatStep, Except.map]
    | true =>
      cases hx : fk.x with
      | none =>
        simp [searchBody, searchOutcome, hfin, hr2c, hr2n, hES, hr3n, hr3c, hretr,
          retrainNeeded, augmented, concatStep, Except.map, hx]
      | some xs =>
        cases hv : fk.validation_data with
        | none =>
          simp [searchBody, searchOutcome, hfin, hr2c, hr2n, hES, hr3n, hr3c, hretr,
            retrainNeeded, augmented, concatStep, Except.map, hx, hv]
        | some vd =>
          simp [searchBody, searchOutcome, hfin, hr2c, hr2n, hES, hr3n, hr3c, hretr,
            retrainNeeded, augmented, concatStep, Except.map, hx, hv]

/-- The state-and-effects view of a `search` call is `searchOutcome` of the
caller-supplied callback-list value. -/
theorem searchRun_outcome (st : TunerState) (h : Heap) (arg : Option Ref)
    (fovd : Bool) (fk : FitKwargs) (hp : Nat) :
    (searchRun st h arg fovd fk hp).map (fun p => (p.1, p.2.2)) =
      searchOutcome st (origCallbacks h arg) fovd fk hp := by
  cases hfin : st._finished with
  | true => simp [searchRun, searchOutcome, hfin, Except.map]
  | false =>
    cases arg with
    | none =>
      have hlt : (h.alloc []).2 < (h.alloc []).1.cells.length := by
        show h.cells.length < (h.cells ++ [[]]).length
        simp
      simp only [searchRun, hfin, Bool.false_eq_true, if_false]
      rw [searchBody_outcome _ _ _ _ _ _ hfin hlt, Heap.read_alloc_self]
      rfl
    | some r =>
      by_cases hnil : h.read r = []
      · have hlt : (h.alloc []).2 < (h.alloc []).1.cells.length := by
          show h.cells.length < (h.cells ++ [[]]).length
          simp
        simp only [searchRun, hfin, Bool.false_eq_true, if_false, hnil, if_true]
        rw [searchBody_outcome _ _ _ _ _ _ hfin hlt, Heap.read_alloc_self]
        simp [origCallbacks, hnil]
      · have hlt : r < h.cells.length := Heap.lt_of_read_ne_nil h r hnil
        simp only [searchRun, hfin, Bool.false_eq_true, if_false, hnil, if_false]
        rw [searchBody_outcome _ _ _ _ _ _ hfin hlt]
        rfl

/-- Frame property: `searchBody` never writes to a list object that existed before the call:
every pre-existing cell reads the same after it succeeds. -/
theorem searchBody_heap_reads (st : TunerState) (h1 : Heap) (callbacks : Ref)
    (fovd : Bool) (fk : FitKwargs) (hp : Nat) (r : Ref)
    (hlt : callbacks < h1.cells.length)
    (hr : r < h1.cells.length) :
    ∀ st' h' effs, searchBody st h1 callbacks fovd fk hp = .ok (st', h', effs) →
      h'.read r = h1.read r := by
  have hA : (deepcopy_callbacks h1 callbacks).1.read r = h1.read r :=
    Heap.read_alloc_of_lt h1 _ r hr
  have hrne : (deepcopy_callbacks h1 callbacks).2 ≠ r := Nat.ne_of_gt hr
  have hApp : ((deepcopy_callbacks h1 callbacks).1.appendCell
      (deepcopy_callbacks h1 callbacks).2 (.earlyStopping 10)).read r = h1.read r := by
    rw [Heap.appendCell, Heap.read_write_ne _ _ _ _ hrne]
    exact hA
  have hlen2 : r < (deepcopy_callbacks h1 callbacks).1.cells.length := by
    show r < (h1.cells ++ [h1.read callbacks]).length
    rw [List.length_append]
    exact Nat.lt_of_lt_of_le hr (Nat.le_add_right _ _)
  have hlen3 : r < ((deepcopy_callbacks h1 callbacks).1.appendCell
      (deepcopy_callbacks h1 callbacks).2 (.earlyStopping 10)).cells.length := by
    rw [Heap.appendCell, Heap.write_length]
    exact hlen2
  have hC : (deepcopy_callbacks (deepcopy_callbacks h1 callbacks).1 callbacks).1.read r
      = h1.read r := by
    rw [show (deepcopy_callbacks (deepcopy_callbacks h1 callbacks).1 callbacks).1.read r
        = (deepcopy_callbacks h1 callbacks).1.read r from
      Heap.read_alloc_of_lt _ _ r hlen2]
    exact hA
  have hD : (deepcopy_callbacks ((deepcopy_callbacks h1 callbacks).1.appendCell
      (deepcopy_callbacks h1 callbacks).2 (.earlyStopping 10)) callbacks).1.read r
      = h1.read r := by
    rw [show (deepcopy_callbacks ((deepcopy_callbacks h1 callbacks).1.appendCell
        (deepcopy_callbacks h1 callbacks).2 (.earlyStopping 10)) callbacks).1.read r
        = ((deepcopy_callbacks h1 callbacks).1.appendCell
        (deepcopy_callbacks h1 callbacks).2 (.earlyStopping 10)).read r from
      Heap.read_alloc_of_lt _ _ r hlen3]
    exact hApp
  intro st' h' effs hok
  cases hES : ((deepcopy_callbacks h1 callbacks).1.read callbacks).any
      Callback.isEarlyStopping with
  | true =>
    have hES3 : (((deepcopy_callbacks h1 callbacks).1).read callbacks).any
        Callback.isEarlyStopping = true := hES
    cases fovd with
    | false =>
      simp [searchBody, hES, hES3] at hok
      rw [← hok.2.1]
      exact hA
    | true =>
      cases hx : fk.x with
      | none => simp [searchBody, hES, hx] at hok
      | some xs =>
        cases hv : fk.validation_data with
        | none => simp [searchBody, hES, hx, hv] at hok
        | some vd =>
          simp [searchBody, hES, hx, hv] at hok
          rw [← hok.2.1]
          exact hC
  | false =>
    have hcbne : (deepcopy_callbacks h1 callbacks).2 ≠ callbacks := Nat.ne_of_gt hlt
    have hr3c : ((deepcopy_callbacks h1 callbacks).1.appendCell
        (deepcopy_callbacks h1 callbacks).2 (.earlyStopping 10)).read callbacks =
        (deepcopy_callbacks h1 callbacks).1.read callbacks := by
      rw [Heap.appendCell, Heap.read_write_ne _ _ _ _ hcbne]
    cases fovd with
    | false =>
      simp [searchBody, hES, hr3c] at hok
      rw [← hok.2.1]
      exact hD
    | true =>
      cases hx : fk.x with
      | none => simp [searchBody, hES, hx] at hok
      | some xs =>
        cases hv : fk.validation_data with
        | none => simp [searchBody, hES, hx, hv] at hok
        | some vd =>
          simp [searchBody, hES, hx, hv] at hok
          rw [← hok.2.1]
          exact hD

/-- Frame property: `search` never writes to a list object that existed before the call. -/
theorem searchRun_heap_preserved (st : TunerState) (h : Heap) (arg : Option Ref)
    (fovd : Bool) (fk : FitKwargs) (hp : Nat) (r : Ref)
    (hr : r < h.cells.length) :
    ∀ st' h' effs, searchRun st h arg fovd fk hp = .ok (st', h', effs) →
      h'.read r = h.read r := by
  intro st' h' effs hok
  cases hfin : st._finished with
  | true =>
    simp [searchRun, hfin] at hok
    rw [← hok.2.1]
  | false =>
    have hstep : ∀ v, r < (h.alloc v).1.cells.length := by
      intro v
      show r < (h.cells ++ [v]).length
      rw [List.length_append]
      exact Nat.lt_of_lt_of_le hr (Nat.le_add_right _ _)
    have hcb : ∀ v, (h.alloc v).2 < (h.alloc v).1.cells.length := by
      intro v
      show h.cells.length < (h.cells ++ [v]).length
      rw [List.length_append]
      exact Nat.lt_succ_of_le (Nat.le_refl _)
    cases arg with
    | none =>
      simp only [searchRun, hfin, Bool.false_eq_true, if_false] at hok
      rw [searchBody_heap_reads st (h.alloc []).1 (h.alloc []).2 fovd fk hp r
        (hcb []) (hstep []) st' h' effs hok]
      exact Heap.read_alloc_of_lt h [] r hr
    | some r0 =>
      by_cases hnil : h.read r0 = []
      · simp only [searchRun, hfin, Bool.false_eq_true, if_false, hnil, if_true] at hok
        rw [searchBody_heap_reads st (h.alloc []).1 (h.alloc []).2 fovd fk hp r
          (hcb []) (hstep []) st' h' effs hok]
        exact Heap.read_alloc_of_lt h [] r hr
      · have hlt0 : r0 < h.cells.length := Heap.lt_of_read_ne_nil h r0 hnil
        simp only [searchRun, hfin, Bool.false_eq_true, if_false, hnil, if_false] at hok
        exact searchBody_heap_reads st h r0 fovd fk hp r hlt0 hr st' h' effs hok

/-- Bridge: a successful `searchRun` projects onto a successful
`searchOutcome`. -/
theorem searchRun_ok_outcome (st : TunerState) (h : Heap) (arg : Option Ref)
    (fovd : Bool) (fk : FitKwargs) (hp : Nat) (st' : TunerState) (h' : Heap)
    (effs : List Effect)
    (hok : searchRun st h arg fovd fk hp = .ok (st', h', effs)) :
    searchOutcome st (origCallbacks h arg) fovd fk hp = .ok (st', effs) := by
  have hmap := searchRun_outcome st h arg fovd fk hp
  rw [hok] at hmap
  simpa [Except.map] using hmap.symm

/-- Bridge: whenever `searchOutcome` raises, so does `searchRun`. -/
theorem searchRun_error_of_outcome (st : TunerState) (h : Heap)
    (arg : Option Ref) (fovd : Bool) (fk : FitKwargs) (hp : Nat) (e : Err)
    (herr : searchOutcome st (origCallbacks h arg) fovd fk hp = .error e) :
    searchRun st h arg fovd fk hp = .error e := by
  have hmap := searchRun_outcome st h arg fovd fk hp
  rw [herr] at hmap
  cases hcase : searchRun st h arg fovd fk hp with
  | ok v => rw [hcase] at hmap; simp [Except.map] at hmap
  | error e2 => rw [hcase] at hmap; simpa [Except.map] using hmap

/-- Characterization of a successful, not-yet-finished `searchOutcome`. -/
theorem searchOutcome_ok (st : TunerState) (orig : List Callback) (fovd : Bool)
    (fk : FitKwargs) (hp : Nat) (st' : TunerState) (effs : List Effect)
    (hfin : st._finished = false)
    (hok : searchOutcome st orig fovd fk hp = .ok (st', effs)) :
    st' = { st with _finished := true } ∧
    ((retrainNeeded orig fovd = true ∧ ∃ x2, concatStep fovd fk = .ok x2 ∧
        effs = [.baseSearch (augmented orig), .buildModel hp, .fitModel orig x2,
                .saveWeights (best_model_path st)]) ∨
     (retrainNeeded orig fovd = false ∧
        effs = [.baseSearch (augmented orig), .loadBaseBest,
                .saveWeights (best_model_path st)])) := by
  cases hre : retrainNeeded orig fovd with
  | true =>
    cases hcs : concatStep fovd fk with
    | error e => simp [searchOutcome, hfin, hre, hcs] at hok
    | ok x2 =>
      simp [searchOutcome, hfin, hre, hcs] at hok
      exact ⟨hok.1.symm, .inl ⟨rfl, x2, rfl, hok.2.symm⟩⟩
  | false =>
    simp [searchOutcome, hfin, hre] at hok
    exact ⟨hok.1.symm, .inr ⟨rfl, hok.2.symm⟩⟩

/-- An infix of the right part of an append is an infix of the append. -/
theorem infix_append_right {p r : List Char} (l : List Char) (hp : p <:+: r) :
    p <:+: l ++ r :=
  hp.trans (l.suffix_append r).isInfix

/-- The character data of the registry error message, decomposed. -/
theorem tunerErrMsg_data (t : PyValue) :
    (tunerErrMsg t).data = "The value ".data ++ ((pyFormat t).data ++
      " passed for argument tuner is invalid, expected one of \"greedy\", \"random\", \"hyperband\", \"bayesian\".".data) := by
  simp [tunerErrMsg, String.data_append]

/-- Claim C1: for every successful call to `search` on an unfinished tuner, the
full-retrain branch (building and fitting a fresh model from the oracle's best
trial) is taken if and only if the caller-supplied callback list contains no
early-stopping callback or `fit_on_val_data` is true; otherwise the model is
taken from the base search procedure's own tracked top model. -/
theorem search_retrain_iff (st : TunerState) (h : Heap) (arg : Option Ref)
    (fovd : Bool) (fk : FitKwargs) (hp : Nat) (st' : TunerState) (h' : Heap)
    (effs : List Effect)
    (hfin : st._finished = false)
    (hok : searchRun st h arg fovd fk hp = .ok (st', h', effs)) :
    (effs.any Effect.isBuildModel = true ↔
      (!(origCallbacks h arg).any Callback.isEarlyStopping || fovd) = true) ∧
    (Effect.loadBaseBest ∈ effs ↔
      ¬ ((!(origCallbacks h arg).any Callback.isEarlyStopping || fovd) = true)) := by
  obtain ⟨-, hbranch⟩ := searchOutcome_ok st (origCallbacks h arg) fovd fk hp st' effs hfin
    (searchRun_ok_outcome st h arg fovd fk hp st' h' effs hok)
  cases hbranch with
  | inl hretr =>
    obtain ⟨hre, x2, -, heffs⟩ := hretr
    rw [retrainNeeded] at hre
    subst heffs
    constructor
    · simp [Effect.isBuildModel, hre]
    · simp [hre]
  | inr helse =>
    obtain ⟨hre, heffs⟩ := helse
    rw [retrainNeeded] at hre
    subst heffs
    constructor
    · simp [Effect.isBuildModel, hre]
    · simp [hre]

/-- Claim C2: the finished flag is false at construction; a call on a finished
tuner is a no-op returning immediately with no effects; a successful call on
an unfinished tuner sets the flag to true, performs exactly one weights write,
and a second call on the resulting state is a no-op with no trials, no retrain
and no second weights write. -/
theorem search_idempotent (pd : String) (st : TunerState) (h : Heap)
    (arg : Option Ref) (fovd : Bool) (fk : FitKwargs) (hp : Nat) :
    (AutoTuner.init pd)._finished = false ∧
    (st._finished = true → searchRun st h arg fovd fk hp = .ok (st, h, [])) ∧
    (∀ st' h' effs, st._finished = false →
      searchRun st h arg fovd fk hp = .ok (st', h', effs) →
      st'._finished = true ∧ effs.countP Effect.isSaveWeights = 1 ∧
      searchRun st' h' arg fovd fk hp = .ok (st', h', [])) := by
  refine ⟨rfl, ?_, ?_⟩
  · intro hfin
    simp [searchRun, hfin]
  · intro st' h' effs hfin hok
    obtain ⟨hst, hbranch⟩ := searchOutcome_ok st (origCallbacks h arg) fovd fk hp st' effs hfin
      (searchRun_ok_outcome st h arg fovd fk hp st' h' effs hok)
    have hfin2 : st'._finished = true := by rw [hst]
    refine ⟨hfin2, ?_, by simp [searchRun, hfin2]⟩
    cases hbranch with
    | inl hretr =>
      obtain ⟨-, x2, -, heffs⟩ := hretr
      subst heffs
      simp [List.countP_cons, Effect.isSaveWeights]
    | inr helse =>
      obtain ⟨-, heffs⟩ := helse
      subst heffs
      simp [List.countP_cons, Effect.isSaveWeights]

/-- Claim C3: after a successful `search`, the caller-supplied callback-list
object is unchanged in contents and length: all appends went to independent
deep copies. -/
theorem search_caller_list_unchanged (st : TunerState) (h : Heap) (r : Ref)
    (fovd : Bool) (fk : FitKwargs) (hp : Nat) (st' : TunerState) (h' : Heap)
    (effs : List Effect)
    (hvalid : r < h.cells.length)
    (hok : searchRun st h (some r) fovd fk hp = .ok (st', h', effs)) :
    h'.read r = h.read r ∧ (h'.read r).length = (h.read r).length := by
  have hpres := searchRun_heap_preserved st h (some r) fovd fk hp r hvalid st' h' effs hok
  exact ⟨hpres, by rw [hpres]⟩

/-- Claim C4: the working list handed to the base search procedure is the
original list with exactly one early-stopping callback of patience 10
appended when the original has none (and the original list unchanged when it
already has one), and every final-retrain fit receives exactly the original
list, with no injected early-stopping callback. -/
theorem search_augmented_callbacks (st : TunerState) (h : Heap)
    (arg : Option Ref) (fovd : Bool) (fk : FitKwargs) (hp : Nat)
    (st' : TunerState) (h' : Heap) (effs : List Effect)
    (hfin : st._finished = false)
    (hok : searchRun st h arg fovd fk hp = .ok (st', h', effs)) :
    Effect.baseSearch
      (if (origCallbacks h arg).any Callback.isEarlyStopping
        then origCallbacks h arg
        else origCallbacks h arg ++ [Callback.earlyStopping 10]) ∈ effs ∧
    (∀ cbs x, Effect.fitModel cbs x ∈ effs → cbs = origCallbacks h arg) := by
  obtain ⟨-, hbranch⟩ := searchOutcome_ok st (origCallbacks h arg) fovd fk hp st' effs hfin
    (searchRun_ok_outcome st h arg fovd fk hp st' h' effs hok)
  cases hbranch with
  | inl hretr =>
    obtain ⟨-, x2, -, heffs⟩ := hretr
    subst heffs
    constructor
    · rw [show (if (origCallbacks h arg).any Callback.isEarlyStopping
          then origCallbacks h arg
          else origCallbacks h arg ++ [Callback.earlyStopping 10]) =
          augmented (origCallbacks h arg) from rfl]
      exact List.mem_cons_self _ _
    · intro cbs x hmem
      simp at hmem
      exact hmem.1
  | inr helse =>
    obtain ⟨-, heffs⟩ := helse
    subst heffs
    constructor
    · rw [show (if (origCallbacks h arg).any Callback.isEarlyStopping
          then origCallbacks h arg
          else origCallbacks h arg ++ [Callback.earlyStopping 10]) =
          augmented (origCallbacks h arg) from rfl]
      exact List.mem_cons_self _ _
    · intro cbs x hmem
      simp at hmem

/-- Claim C5: when `fit_on_val_data` is true and both the training input and the
validation dataset are present, the final retrain fits on the concatenation of
the two, whose size is the sum of the two sizes. -/
theorem search_concat_sizes (st : TunerState) (h : Heap) (arg : Option Ref)
    (fk : FitKwargs) (hp : Nat) (xs vd : Dataset) (st' : TunerState)
    (h' : Heap) (effs : List Effect)
    (hfin : st._finished = false)
    (hx : fk.x = some xs) (hv : fk.validation_data = some vd)
    (hok : searchRun st h arg true fk hp = .ok (st', h', effs)) :
    Effect.fitModel (origCallbacks h arg) (some (xs ++ vd)) ∈ effs ∧
    (xs ++ vd).length = xs.length + vd.length := by
  obtain ⟨-, hbranch⟩ := searchOutcome_ok st (origCallbacks h arg) true fk hp st' effs hfin
    (searchRun_ok_outcome st h arg true fk hp st' h' effs hok)
  cases hbranch with
  | inl hretr =>
    obtain ⟨-, x2, hcs, heffs⟩ := hretr
    rw [concatStep] at hcs
    simp [hx, hv] at hcs
    subst heffs
    rw [← hcs]
    constructor
    · simp
    · simp
  | inr helse =>
    obtain ⟨hre, -⟩ := helse
    simp [retrainNeeded] at hre

/-- Claim C9: passing `callbacks=None` behaves exactly as passing a reference to
an empty list; in that case an early-stopping callback with patience 10 is
injected into the working list handed to the base search, and the full-retrain
branch is always taken. -/
theorem search_none_eq_empty_list (st : TunerState) (h : Heap) (r : Ref)
    (fovd : Bool) (fk : FitKwargs) (hp : Nat)
    (hnil : h.read r = []) :
    searchRun st h (some r) fovd fk hp = searchRun st h none fovd fk hp ∧
    (∀ st' h' effs, st._finished = false →
      searchRun st h none fovd fk hp = .ok (st', h', effs) →
      Effect.baseSearch [Callback.earlyStopping 10] ∈ effs ∧
      effs.any Effect.isBuildModel = true) := by
  constructor
  · simp [searchRun, hnil]
  · intro st' h' effs hfin hok
    obtain ⟨-, hbranch⟩ := searchOutcome_ok st (origCallbacks h none) fovd fk hp st' effs hfin
      (searchRun_ok_outcome st h none fovd fk hp st' h' effs hok)
    cases hbranch with
    | inl hretr =>
      obtain ⟨-, x2, -, heffs⟩ := hretr
      subst heffs
      constructor
      · rw [show ([Callback.earlyStopping 10] : List Callback) =
            augmented (origCallbacks h none) from rfl]
        exact List.mem_cons_self _ _
      · simp [Effect.isBuildModel]
    | inr helse =>
      obtain ⟨hre, -⟩ := helse
      simp [retrainNeeded, origCallbacks, Heap.read] at hre

/-- Witness for `search_retrain_iff` at a concrete input. -/
theorem search_retrain_iff_witness :
    (([Effect.baseSearch [Callback.other 7, Callback.earlyStopping 10],
       Effect.buildModel 42,
       Effect.fitModel [Callback.other 7] (some [1, 2, 3]),
       Effect.saveWeights "/tmp/proj/best_model"].any Effect.isBuildModel = true) ↔
      ((!(origCallbacks ⟨[[Callback.other 7]]⟩ (some 0)).any Callback.isEarlyStopping
        || false) = true)) ∧
    ((Effect.loadBaseBest ∈
      [Effect.baseSearch [Callback.other 7, Callback.earlyStopping 10],
       Effect.buildModel 42,
       Effect.fitModel [Callback.other 7] (some [1, 2, 3]),
       Effect.saveWeights "/tmp/proj/best_model"]) ↔
      ¬ ((!(origCallbacks ⟨[[Callback.other 7]]⟩ (some 0)).any Callback.isEarlyStopping
        || false) = true)) :=
  search_retrain_iff (AutoTuner.init "/tmp/proj") ⟨[[Callback.other 7]]⟩ (some 0) false
    ⟨some [1, 2, 3], none, none⟩ 42
    { _finished := true, project_dir := "/tmp/proj" }
    ⟨[[Callback.other 7], [Callback.other 7, Callback.earlyStopping 10],
      [Callback.other 7]]⟩
    [Effect.baseSearch [Callback.other 7, Callback.earlyStopping 10],
     Effect.buildModel 42,
     Effect.fitModel [Callback.other 7] (some [1, 2, 3]),
     Effect.saveWeights "/tmp/proj/best_model"]
    rfl rfl

/-- Witness for `search_idempotent` at a concrete input. -/
theorem search_idempotent_witness :
    ({ _finished := true, project_dir := "/tmp/proj" } : TunerState)._finished = true ∧
    [Effect.baseSearch [Callback.earlyStopping 10], Effect.buildModel 0,
     Effect.fitModel [] (some [1]),
     Effect.saveWeights "/tmp/proj/best_model"].countP Effect.isSaveWeights = 1 ∧
    searchRun { _finished := true, project_dir := "/tmp/proj" }
      ⟨[[], [Callback.earlyStopping 10], []]⟩ none false ⟨some [1], none, none⟩ 0 =
      .ok ({ _finished := true, project_dir := "/tmp/proj" },
           ⟨[[], [Callback.earlyStopping 10], []]⟩, []) :=
  (search_idempotent "/tmp/proj" (AutoTuner.init "/tmp/proj") ⟨[]⟩ none false
    ⟨some [1], none, none⟩ 0).2.2
    { _finished := true, project_dir := "/tmp/proj" }
    ⟨[[], [Callback.earlyStopping 10], []]⟩
    [Effect.baseSearch [Callback.earlyStopping 10], Effect.buildModel 0,
     Effect.fitModel [] (some [1]), Effect.saveWeights "/tmp/proj/best_model"]
    rfl rfl

/-- Witness for `search_caller_list_unchanged` at a concrete input. -/
theorem search_caller_list_unchanged_witness :
    (⟨[[Callback.other 7], [Callback.other 7, Callback.earlyStopping 10],
       [Callback.other 7]]⟩ : Heap).read 0 =
      (⟨[[Callback.other 7]]⟩ : Heap).read 0 ∧
    ((⟨[[Callback.other 7], [Callback.other 7, Callback.earlyStopping 10],
       [Callback.other 7]]⟩ : Heap).read 0).length =
      ((⟨[[Callback.other 7]]⟩ : Heap).read 0).length :=
  search_caller_list_unchanged (AutoTuner.init "/tmp/proj") ⟨[[Callback.other 7]]⟩ 0
    false ⟨some [1, 2, 3], none, none⟩ 42
    { _finished := true, project_dir := "/tmp/proj" }
    ⟨[[Callback.other 7], [Callback.other 7, Callback.earlyStopping 10],
      [Callback.other 7]]⟩
    [Effect.baseSearch [Callback.other 7, Callback.earlyStopping 10],
     Effect.buildModel 42,
     Effect.fitModel [Callback.other 7] (some [1, 2, 3]),
     Effect.saveWeights "/tmp/proj/best_model"]
    (by decide) rfl

/-- Witness for `search_augmented_callbacks` at a concrete input. -/
theorem search_augmented_callbacks_witness :
    Effect.baseSearch
      (if (origCallbacks ⟨[[Callback.other 7]]⟩ (some 0)).any Callback.isEarlyStopping
        then origCallbacks ⟨[[Callback.other 7]]⟩ (some 0)
        else origCallbacks ⟨[[Callback.other 7]]⟩ (some 0) ++ [Callback.earlyStopping 10]) ∈
      [Effect.baseSearch [Callback.other 7, Callback.earlyStopping 10],
       Effect.buildModel 42,
       Effect.fitModel [Callback.other 7] (some [1, 2, 3]),
       Effect.saveWeights "/tmp/proj/best_model"] ∧
    (∀ cbs x, Effect.fitModel cbs x ∈
      [Effect.baseSearch [Callback.other 7, Callback.earlyStopping 10],
       Effect.buildModel 42,
       Effect.fitModel [Callback.other 7] (some [1, 2, 3]),
       Effect.saveWeights "/tmp/proj/best_model"] →
      cbs = origCallbacks ⟨[[Callback.other 7]]⟩ (some 0)) :=
  search_augmented_callbacks (AutoTuner.init "/tmp/proj") ⟨[[Callback.other 7]]⟩
    (some 0) false ⟨some [1, 2, 3], none, none⟩ 42
    { _finished := true, project_dir := "/tmp/proj" }
    ⟨[[Callback.other 7], [Callback.other 7, Callback.earlyStopping 10],
      [Callback.other 7]]⟩
    [Effect.baseSearch [Callback.other 7, Callback.earlyStopping 10],
     Effect.buildModel 42,
     Effect.fitModel [Callback.other 7] (some [1, 2, 3]),
     Effect.saveWeights "/tmp/proj/best_model"]
    rfl rfl

/-- Witness for `search_concat_sizes`: 100 training examples and 20 validation
examples give a final fit input of 120 examples. -/
theorem search_concat_sizes_witness :
    Effect.fitModel (origCallbacks ⟨[]⟩ none)
      (some (List.replicate 100 0 ++ List.replicate 20 1)) ∈
      [Effect.baseSearch [Callback.earlyStopping 10], Effect.buildModel 0,
       Effect.fitModel [] (some (List.replicate 100 0 ++ List.replicate 20 1)),
       Effect.saveWeights "/tmp/proj/best_model"] ∧
    (List.replicate 100 0 ++ List.replicate 20 1).length =
      (List.replicate 100 0).length + (List.replicate 20 1).length :=
  search_concat_sizes (AutoTuner.init "/tmp/proj") ⟨[]⟩ none
    ⟨some (List.replicate 100 0), some (List.replicate 20 1), none⟩ 0
    (List.replicate 100 0) (List.replicate 20 1)
    { _finished := true, project_dir := "/tmp/proj" }
    ⟨[[], [Callback.earlyStopping 10], []]⟩
    [Effect.baseSearch [Callback.earlyStopping 10], Effect.buildModel 0,
     Effect.fitModel [] (some (List.replicate 100 0 ++ List.replicate 20 1)),
     Effect.saveWeights "/tmp/proj/best_model"]
    rfl rfl rfl rfl

/-- Witness for `search_none_eq_empty_list` at a concrete input. -/
theorem search_none_eq_empty_list_witness :
    searchRun (AutoTuner.init "/tmp/proj") ⟨[[]]⟩ (some 0) false
      ⟨some [1], none, none⟩ 0 =
    searchRun (AutoTuner.init "/tmp/proj") ⟨[[]]⟩ none false
      ⟨some [1], none, none⟩ 0 ∧
    (∀ st' h' effs, (AutoTuner.init "/tmp/proj")._finished = false →
      searchRun (AutoTuner.init "/tmp/proj") ⟨[[]]⟩ none false
        ⟨some [1], none, none⟩ 0 = .ok (st', h', effs) →
      Effect.baseSearch [Callback.earlyStopping 10] ∈ effs ∧
      effs.any Effect.isBuildModel = true) :=
  search_none_eq_empty_list (AutoTuner.init "/tmp/proj") ⟨[[]]⟩ 0 false
    ⟨some [1], none, none⟩ 0 rfl

set_option maxRecDepth 4000

/-- Claim C8: `best_model_path` is the pure join of the project directory with
"best_model" (exactly "/tmp/proj/best_model" for project directory
"/tmp/proj"), and it is unchanged across a `search` call on the instance. -/
theorem best_model_path_derived (st : TunerState) (h : Heap) (arg : Option Ref)
    (fovd : Bool) (fk : FitKwargs) (hp : Nat) (st' : TunerState) (h' : Heap)
    (effs : List Effect)
    (hok : searchRun st h arg fovd fk hp = .ok (st', h', effs)) :
    best_model_path st = os_path_join st.project_dir "best_model" ∧
    best_model_path { st with project_dir := "/tmp/proj" } = "/tmp/proj/best_model" ∧
    best_model_path st' = best_model_path st := by
  refine ⟨rfl, rfl, ?_⟩
  cases hfin : st._finished with
  | true =>
    simp [searchRun, hfin] at hok
    rw [← hok.1]
  | false =>
    obtain ⟨hst, -⟩ := searchOutcome_ok st (origCallbacks h arg) fovd fk hp st' effs hfin
      (searchRun_ok_outcome st h arg fovd fk hp st' h' effs hok)
    rw [hst]
    rfl

/-- Witness for `best_model_path_derived` at a concrete input. -/
theorem best_model_path_derived_witness :
    best_model_path (AutoTuner.init "/tmp/proj") =
      os_path_join (AutoTuner.init "/tmp/proj").project_dir "best_model" ∧
    best_model_path { AutoTuner.init "/tmp/proj" with project_dir := "/tmp/proj" } =
      "/tmp/proj/best_model" ∧
    best_model_path { _finished := true, project_dir := "/tmp/proj" } =
      best_model_path (AutoTuner.init "/tmp/proj") :=
  best_model_path_derived (AutoTuner.init "/tmp/proj") ⟨[]⟩ none false
    ⟨some [1], none, none⟩ 0 { _finished := true, project_dir := "/tmp/proj" }
    ⟨[[], [Callback.earlyStopping 10], []]⟩
    [Effect.baseSearch [Callback.earlyStopping 10], Effect.buildModel 0,
     Effect.fitModel [] (some [1]), Effect.saveWeights "/tmp/proj/best_model"]
    rfl

/-- Claim C7 (amended): when `fit_on_val_data` is true, the training input is
present, and no validation dataset is in `fit_kwargs`, `search` raises the
missing-key `KeyError` for `validation_data` before fitting the retrained
model; it does not silently skip the concatenation. -/
theorem search_missing_validation_raises (st : TunerState) (h : Heap)
    (arg : Option Ref) (fk : FitKwargs) (hp : Nat) (xs : Dataset)
    (hfin : st._finished = false) (hx : fk.x = some xs)
    (hv : fk.validation_data = none) :
    searchRun st h arg true fk hp = .error (.keyError "validation_data") := by
  apply searchRun_error_of_outcome
  simp [searchOutcome, hfin, retrainNeeded, concatStep, hx, hv]

/-- Witness for `search_missing_validation_raises` at a concrete input. -/
theorem search_missing_validation_raises_witness :
    searchRun (AutoTuner.init "/tmp/proj") ⟨[]⟩ none true
      ⟨some [1, 2], none, none⟩ 0 = .error (.keyError "validation_data") :=
  search_missing_validation_raises (AutoTuner.init "/tmp/proj") ⟨[]⟩ none
    ⟨some [1, 2], none, none⟩ 0 [1, 2] rfl rfl rfl

/-- Claim C7 counterexample: at a concrete input with `fit_on_val_data` true and
no validation dataset, the raised exception is the `KeyError` of a dict
lookup, not the invalid-argument `ValueError` class the claim states. -/
theorem search_missing_validation_not_invalid_argument :
    searchRun (AutoTuner.init "/tmp/proj") ⟨[]⟩ none true
      ⟨some [1, 2], none, none⟩ 0 = .error (.keyError "validation_data") ∧
    Err.isValueError (.keyError "validation_data") = false :=
  ⟨rfl, rfl⟩

/-- Claim C6 (amended): `get_tuner_class` returns the registered class for each
of the 10 valid names; for every string that is not a key it raises a
ValueError whose message names the four strategies "greedy", "random",
"hyperband" and "bayesian" (and only those). -/
theorem get_tuner_class_registry (s : String)
    (hmiss : TUNER_CLASSES.lookup s = none) :
    get_tuner_class (.str "bayesian") = .ok .bayesianOptimization ∧
    get_tuner_class (.str "random") = .ok .randomSearch ∧
    get_tuner_class (.str "hyperband") = .ok .hyperband ∧
    get_tuner_class (.str "greedy") = .ok .greedy ∧
    get_tuner_class (.str "image_classifier") = .ok .imageClassifierTuner ∧
    get_tuner_class (.str "image_regressor") = .ok .greedy ∧
    get_tuner_class (.str "text_classifier") = .ok .greedy ∧
    get_tuner_class (.str "text_regressor") = .ok .greedy ∧
    get_tuner_class (.str "structured_data_classifier") = .ok .greedy ∧
    get_tuner_class (.str "structured_data_regressor") = .ok .greedy ∧
    get_tuner_class (.str s) = .error (.valueError (tunerErrMsg (.str s))) ∧
    "greedy".data <:+: (tunerErrMsg (.str s)).data ∧
    "random".data <:+: (tunerErrMsg (.str s)).data ∧
    "hyperband".data <:+: (tunerErrMsg (.str s)).data ∧
    "bayesian".data <:+: (tunerErrMsg (.str s)).data := by
  have htail : ∀ p : List Char, (p <:+:
      " passed for argument tuner is invalid, expected one of \"greedy\", \"random\", \"hyperband\", \"bayesian\".".data) →
      p <:+: (tunerErrMsg (.str s)).data := by
    intro p hp
    rw [tunerErrMsg_data]
    exact infix_append_right _ (infix_append_right _ hp)
  refine ⟨rfl, rfl, rfl, rfl, rfl, rfl, rfl, rfl, rfl, rfl, ?_, ?_, ?_, ?_, ?_⟩
  · simp [get_tuner_class, hmiss]
  · exact htail _ (by decide)
  · exact htail _ (by decide)
  · exact htail _ (by decide)
  · exact htail _ (by decide)

/-- Witness for `get_tuner_class_registry` at the unregistered name
"nonexistent". -/
theorem get_tuner_class_registry_witness :
    TUNER_CLASSES.lookup "nonexistent" = none ∧
    get_tuner_class (.str "nonexistent") =
      .error (.valueError (tunerErrMsg (.str "nonexistent"))) :=
  ⟨by decide,
   (get_tuner_class_registry "nonexistent" (by decide)).2.2.2.2.2.2.2.2.2.2.1⟩

/-- Claim C6 counterexample: at the unregistered input "nonexistent", the raised
message does not mention the valid names "image_classifier" or
"structured_data_regressor", so it does not list all 10 valid names. -/
theorem get_tuner_class_msg_not_all_names :
    get_tuner_class (.str "nonexistent") =
      .error (.valueError (tunerErrMsg (.str "nonexistent"))) ∧
    ¬ ("image_classifier".data <:+: (tunerErrMsg (.str "nonexistent")).data) ∧
    ¬ ("structured_data_regressor".data <:+:
        (tunerErrMsg (.str "nonexistent")).data) :=
  ⟨rfl, by decide, by decide⟩

/-- Claim C10: `get_tuner_class` raises the ValueError for every non-string
argument — including the registry's own tuner classes — and returns a class
only when the argument is a string matching a registry key. -/
theorem get_tuner_class_nonstring (c : TunerClass) (n : Int) (v : PyValue)
    (res : TunerClass) (hres : get_tuner_class v = .ok res) :
    (∃ m, get_tuner_class (.cls c) = .error (.valueError m)) ∧
    (∃ m, get_tuner_class (.intVal n) = .error (.valueError m)) ∧
    (∃ s, v = .str s ∧ TUNER_CLASSES.lookup s = some res) := by
  refine ⟨⟨tunerErrMsg (.cls c), rfl⟩, ⟨tunerErrMsg (.intVal n), rfl⟩, ?_⟩
  cases v with
  | str s =>
    refine ⟨s, rfl, ?_⟩
    cases hl : TUNER_CLASSES.lookup s with
    | none => simp [get_tuner_class, hl] at hres
    | some c2 =>
      simp [get_tuner_class, hl] at hres
      rw [hres]
  | cls c2 => simp [get_tuner_class] at hres
  | intVal n2 => simp [get_tuner_class] at hres

/-- Witness for `get_tuner_class_nonstring` at concrete inputs. -/
theorem get_tuner_class_nonstring_witness :
    (∃ m, get_tuner_class (.cls .greedy) = .error (.valueError m)) ∧
    (∃ m, get_tuner_class (.intVal 3) = .error (.valueError m)) ∧
    (∃ s, PyValue.str "greedy" = .str s ∧ TUNER_CLASSES.lookup s = some .greedy) :=
  get_tuner_class_nonstring .greedy 3 (.str "greedy") .greedy rfl
